import Mathlib

/-!
Verification of the drift detector (`src/overseer/drift/detector.py`) of the
overseer task tracker.  Prompts and all other Python strings are modelled as
`List Char`; Python floats are modelled as exact rationals; the Python regular
expressions used by the detector are small enough that each one is translated
into an explicit recursive matcher.  The embedding covers ASCII text, which is
the alphabet the detector's patterns and vocabularies are written in.
-/

namespace Overseer

/-- Python strings, modelled as lists of characters. -/
abbrev Str := List Char

/-- The ASCII whitespace characters recognised by Python's `str.strip` and `\s`. -/
def pyIsSpace (c : Char) : Bool :=
  c = ' ' || c = '\t' || c = '\n' || c = '\r' || c = Char.ofNat 11 || c = Char.ofNat 12

/-- ASCII lower-casing of one character, as Python's `str.lower` does on ASCII. -/
def lowerChar (c : Char) : Char :=
  if 'A' ≤ c && c ≤ 'Z' then Char.ofNat (c.toNat + 32) else c

/-- ASCII upper-casing of one character, as Python's `str.upper` does on ASCII. -/
def upperChar (c : Char) : Char :=
  if 'a' ≤ c && c ≤ 'z' then Char.ofNat (c.toNat - 32) else c

/-- Python `str.lower` (ASCII fragment). -/
def pyLower (s : Str) : Str := s.map lowerChar

/-- Python `str.upper` (ASCII fragment). -/
def pyUpper (s : Str) : Str := s.map upperChar

/-- Python `str.strip`: drop whitespace from both ends. -/
def pyStrip (s : Str) : Str :=
  ((s.dropWhile pyIsSpace).reverse.dropWhile pyIsSpace).reverse

/-- ASCII letter, the `[a-zA-Z]` character class. -/
def isAsciiLetter (c : Char) : Bool :=
  ('a' ≤ c && c ≤ 'z') || ('A' ≤ c && c ≤ 'Z')

/-- ASCII digit, the `\d` character class (ASCII fragment). -/
def isAsciiDigit (c : Char) : Bool := '0' ≤ c && c ≤ '9'

/-- The `\w` character class (ASCII fragment), also used for `\b` boundaries. -/
def isWordChar (c : Char) : Bool := isAsciiLetter c || isAsciiDigit c || c = '_'

/-- Python's substring test `needle in hay` (`""` is in everything). -/
def containsSub (needle : Str) : Str → Bool
  | [] => needle.isEmpty
  | c :: t => needle.isPrefixOf (c :: t) || containsSub needle t

/-- Drop a literal pattern (given lower-cased) from the front of `s`,
case-insensitively; returns the remainder on success. -/
def dropPrefixCI : Str → Str → Option Str
  | [], s => some s
  | _ :: _, [] => Option.none
  | p :: ps, c :: cs => if lowerChar c = p then dropPrefixCI ps cs else Option.none

/-- The apostrophe character, used by a few of the detector's literal patterns. -/
def apos : Char := Char.ofNat 39

/-- The length of `List.dropWhile` never exceeds the length of the input. -/
theorem length_dropWhile_le {α : Type _} (p : α → Bool) (l : List α) :
    (l.dropWhile p).length ≤ l.length :=
  (List.dropWhile_sublist p).length_le

/-! ## Data model (`src/overseer/models/task.py`, `src/overseer/jira/models.py`) -/

/-- The `TaskStatus` from `models/task.py`. -/
inductive TaskStatus
  | active
  | backlog
  | done
  | blocked
deriving DecidableEq

/-- The `TaskType` from `models/task.py`. -/
inductive TaskType
  | feature
  | bug
  | debt
  | chore
deriving DecidableEq

/-- The `Origin` from `models/task.py`. -/
inductive Origin
  | human
  | agent
deriving DecidableEq

/-- The `Task` from `models/task.py`; the datetime fields are modelled as abstract
timestamps (the detector never reads them). -/
structure Task where
  id : Str
  title : Str
  status : TaskStatus
  type : TaskType
  created_by : Origin
  created_at : Nat
  updated_at : Nat
  context : Option Str := Option.none
  linked_files : List Str := []
deriving DecidableEq

/-- The `JiraIssue` from `jira/models.py` (the fields the detector consumes). -/
structure JiraIssue where
  key : Str
  summary : Str
  status : Str
  issue_type : Str
  assignee : Option Str := Option.none
  description : Option Str := Option.none
deriving DecidableEq

/-- The `MatchStrength` from `drift/detector.py`. -/
inductive MatchStrength
  | strong
  | weak
  | none
deriving DecidableEq

/-- The `DriftResult` from `drift/detector.py`, with the dataclass defaults. -/
structure DriftResult where
  matched_task : Option Task := Option.none
  confidence : ℚ := 0
  match_strength : MatchStrength := MatchStrength.none
  suggested_title : Option Str := Option.none
  match_reasons : List Str := []
  jira_issue : Option JiraIssue := Option.none
deriving DecidableEq

/-- The Jira search capability: `JiraClient.search_issues(query, project_key)`,
which may raise (modelled as `Except.error`). -/
abbrev SearchFn := Str → Option Str → Except Str (List JiraIssue)

/-- The `DriftDetector.__init__` state. -/
structure DriftDetector where
  tasks : List Task
  jira_client : Option SearchFn := Option.none
  jira_project_key : Option Str := Option.none

/-! ## Vocabulary sets from `drift/detector.py` -/

/-- The `STOP_WORDS` from `drift/detector.py`. -/
def STOP_WORDS : List Str :=
  (["a", "an", "the", "is", "are", "was", "were", "be", "been", "being",
    "have", "has", "had", "do", "does", "did", "will", "would", "could",
    "should", "may", "might", "must", "shall", "can", "need", "dare",
    "ought", "used", "to", "of", "in", "for", "on", "with", "at", "by",
    "from", "as", "into", "through", "during", "before", "after", "above",
    "below", "between", "under", "again", "further", "then", "once", "here",
    "there", "when", "where", "why", "how", "all", "each", "few", "more",
    "most", "other", "some", "such", "no", "nor", "not", "only", "own",
    "same", "so", "than", "too", "very", "just", "also", "now", "and",
    "but", "or", "if", "because", "until", "while", "although", "though",
    "i", "me", "my", "we", "our", "you", "your", "it", "its", "this",
    "that", "these", "those", "what", "which", "who", "whom", "please",
    "help", "want", "like", "get", "make", "let", "try", "use"] : List String).map String.data

/-- The `BUG_INDICATORS` from `drift/detector.py`. -/
def BUG_INDICATORS : List Str :=
  (["bug", "fix", "broken", "error", "crash", "issue", "problem", "fail", "wrong"] :
    List String).map String.data

/-- The `FEATURE_INDICATORS` from `drift/detector.py`. -/
def FEATURE_INDICATORS : List Str :=
  (["add", "create", "implement", "build", "new", "feature"] : List String).map String.data

/-- The `REFACTOR_INDICATORS` from `drift/detector.py`. -/
def REFACTOR_INDICATORS : List Str :=
  (["refactor", "clean", "improve", "optimize", "update", "change"] : List String).map String.data

/-! ## Keyword extraction (`_extract_keywords`) -/

/-- Python `re.findall(r"[a-zA-Z][a-zA-Z0-9_]*", text)`: maximal-munch word tokens.
Structural recursion on a fuel bound (any fuel at least the string length
computes the same list, see `tokenizeAux_congr`). -/
def tokenizeAux : Nat → Str → List Str
  | _, [] => []
  | 0, _ :: _ => []
  | fuel + 1, c :: rest =>
    if isAsciiLetter c then
      (c :: rest.takeWhile isWordChar) :: tokenizeAux fuel (rest.dropWhile isWordChar)
    else
      tokenizeAux fuel rest

theorem tokenizeAux_congr :
    ∀ (f g : Nat) (s : Str), s.length ≤ f → s.length ≤ g →
      tokenizeAux f s = tokenizeAux g s := by
  intro f
  induction f with
  | zero =>
    intro g s hf _
    have hs : s = [] := List.length_eq_zero.mp (Nat.le_zero.mp hf)
    subst hs
    cases g <;> rfl
  | succ f ih =>
    intro g s hf hg
    cases s with
    | nil => cases g <;> rfl
    | cons c rest =>
      cases g with
      | zero => simp at hg
      | succ g =>
        simp only [tokenizeAux]
        simp only [List.length_cons, Nat.succ_le_succ_iff] at hf hg
        by_cases h : isAsciiLetter c = true
        · simp only [h, if_true]
          have hlen := length_dropWhile_le isWordChar rest
          rw [ih g _ (le_trans hlen hf) (le_trans hlen hg)]
        · simp only [h, Bool.false_eq_true, if_false]
          exact ih g rest hf hg

/-- Python `re.findall(r"[a-zA-Z][a-zA-Z0-9_]*", text)`, at the canonical fuel. -/
def tokenize (s : Str) : List Str := tokenizeAux s.length s

/-- The wrapper `tokenize` satisfies the intended maximal-munch recurrence. -/
theorem tokenize_cons (c : Char) (rest : Str) :
    tokenize (c :: rest) =
      if isAsciiLetter c then
        (c :: rest.takeWhile isWordChar) :: tokenize (rest.dropWhile isWordChar)
      else
        tokenize rest := by
  show tokenizeAux (rest.length + 1) (c :: rest) = _
  simp only [tokenizeAux, tokenize]
  by_cases h : isAsciiLetter c = true <;> simp only [h, if_true, if_false]
  · rw [tokenizeAux_congr rest.length _ _ (length_dropWhile_le _ _) le_rfl]
  · rfl

/-- The `DriftDetector._extract_keywords`: lower-case word tokens, minus stop words
and words of length at most 2, as a set (deduplicated list). -/
def extractKeywords (text : Str) : List Str :=
  ((tokenize (pyLower text)).filter
    (fun w => !STOP_WORDS.contains w && decide (2 < w.length))).dedup

/-! ## File-reference extraction (`_extract_file_references`) -/

/-- Character class (word chars, dash, slash) of the `file.ext` pattern. -/
def isFileChar1 (c : Char) : Bool := isWordChar c || c = '-' || c = '/'

/-- Character class `[\w\-]` of the dotted-module pattern. -/
def isFileChar2 (c : Char) : Bool := isWordChar c || c = '-'

/-- One attempted match of the `file.ext` pattern (class run, dot, 1-4 letters) at the head of `s`. -/
def matchP1 (s : Str) : Option Str :=
  let run := s.takeWhile isFileChar1
  if run.isEmpty then Option.none else
  match s.drop run.length with
  | '.' :: s2 =>
    let ext := (s2.takeWhile isAsciiLetter).take 4
    if ext.isEmpty then Option.none else some (run ++ '.' :: ext)
  | _ => Option.none

theorem matchP1_length_pos {s m : Str} (h : matchP1 s = some m) : 0 < m.length := by
  simp only [matchP1] at h
  split at h
  · exact absurd h (by simp)
  · split at h
    · split at h
      · exact absurd h (by simp)
      · cases h
        simp [List.length_append]
    · exact absurd h (by simp)

/-- Python `re.findall` for the `file.ext` pattern: scan left to right, resuming
after each non-overlapping match (fuel-structured, see `findAll1Aux_congr`). -/
def findAll1Aux : Nat → Str → List Str
  | _, [] => []
  | 0, _ :: _ => []
  | fuel + 1, c :: rest =>
    match matchP1 (c :: rest) with
    | some m => m :: findAll1Aux fuel ((c :: rest).drop m.length)
    | Option.none => findAll1Aux fuel rest

theorem findAll1Aux_congr :
    ∀ (f g : Nat) (s : Str), s.length ≤ f → s.length ≤ g →
      findAll1Aux f s = findAll1Aux g s := by
  intro f
  induction f with
  | zero =>
    intro g s hf _
    have hs : s = [] := List.length_eq_zero.mp (Nat.le_zero.mp hf)
    subst hs
    cases g <;> rfl
  | succ f ih =>
    intro g s hf hg
    cases s with
    | nil => cases g <;> rfl
    | cons c rest =>
      cases g with
      | zero => simp at hg
      | succ g =>
        simp only [findAll1Aux]
        simp only [List.length_cons, Nat.succ_le_succ_iff] at hf hg
        cases hm : matchP1 (c :: rest) with
        | none => rw [ih g rest hf hg]
        | some m =>
          dsimp only
          have hpos := matchP1_length_pos hm
          have hlen : ((c :: rest).drop m.length).length ≤ rest.length := by
            simp only [List.length_drop, List.length_cons]
            omega
          rw [ih g _ (le_trans hlen hf) (le_trans hlen hg)]

/-- Python `re.findall` for the `file.ext` pattern, at the canonical fuel. -/
def findAll1 (s : Str) : List Str := findAll1Aux s.length s

/-- The wrapper `findAll1` satisfies the intended scan recurrence. -/
theorem findAll1_cons (c : Char) (rest : Str) :
    findAll1 (c :: rest) =
      match matchP1 (c :: rest) with
      | some m => m :: findAll1 ((c :: rest).drop m.length)
      | Option.none => findAll1 rest := by
  show findAll1Aux (rest.length + 1) (c :: rest) = _
  simp only [findAll1Aux, findAll1]
  cases hm : matchP1 (c :: rest) with
  | none => rfl
  | some m =>
    dsimp only
    have hpos := matchP1_length_pos hm
    have hlen : ((c :: rest).drop m.length).length ≤ rest.length := by
      simp only [List.length_drop, List.length_cons]
      omega
    rw [findAll1Aux_congr rest.length _ _ hlen le_rfl]

/-- The dotted-group tail of the dotted-module pattern: consume as many
`.segment` groups as possible, returning the consumed prefix
(fuel-structured, see `p2GroupsAux_congr`). -/
def p2GroupsAux : Nat → Str → Str
  | _, [] => []
  | 0, _ :: _ => []
  | fuel + 1, c :: s2 =>
    if c = '.' then
      let seg := s2.takeWhile isFileChar2
      if seg.isEmpty then [] else c :: seg ++ p2GroupsAux fuel (s2.drop seg.length)
    else []

theorem p2GroupsAux_congr :
    ∀ (f g : Nat) (s : Str), s.length ≤ f → s.length ≤ g →
      p2GroupsAux f s = p2GroupsAux g s := by
  intro f
  induction f with
  | zero =>
    intro g s hf _
    have hs : s = [] := List.length_eq_zero.mp (Nat.le_zero.mp hf)
    subst hs
    cases g <;> rfl
  | succ f ih =>
    intro g s hf hg
    cases s with
    | nil => cases g <;> rfl
    | cons c s2 =>
      cases g with
      | zero => simp at hg
      | succ g =>
        simp only [p2GroupsAux]
        simp only [List.length_cons, Nat.succ_le_succ_iff] at hf hg
        by_cases hc : c = '.'
        · simp only [hc, if_true]
          by_cases hseg : (s2.takeWhile isFileChar2).isEmpty = true
          · simp only [hseg, if_true]
          · simp only [hseg, if_false]
            have hlen : (s2.drop (s2.takeWhile isFileChar2).length).length ≤ s2.length := by
              simp only [List.length_drop]
              omega
            rw [ih g _ (le_trans hlen hf) (le_trans hlen hg)]
        · simp only [hc, if_false]

/-- The dotted-group tail, at the canonical fuel. -/
def p2Groups (s : Str) : Str := p2GroupsAux s.length s

/-- One attempted match of `[\w\-]+(?:\.[\w\-]+)+` at the head of `s`. -/
def matchP2 (s : Str) : Option Str :=
  let run := s.takeWhile isFileChar2
  if run.isEmpty then Option.none else
  let g := p2Groups (s.drop run.length)
  if g.isEmpty then Option.none else some (run ++ g)

theorem matchP2_length_pos {s m : Str} (h : matchP2 s = some m) : 0 < m.length := by
  simp only [matchP2] at h
  split at h
  · exact absurd h (by simp)
  · split at h
    · exact absurd h (by simp)
    · cases h
      rename_i hrun _
      rw [List.isEmpty_iff] at hrun
      simp only [List.length_append]
      cases hr : s.takeWhile isFileChar2 with
      | nil => exact absurd hr hrun
      | cons a t => simp [hr]

/-- Python `re.findall` for the dotted-module pattern (fuel-structured, see
`findAll2Aux_congr`). -/
def findAll2Aux : Nat → Str → List Str
  | _, [] => []
  | 0, _ :: _ => []
  | fuel + 1, c :: rest =>
    match matchP2 (c :: rest) with
    | some m => m :: findAll2Aux fuel ((c :: rest).drop m.length)
    | Option.none => findAll2Aux fuel rest

theorem findAll2Aux_congr :
    ∀ (f g : Nat) (s : Str), s.length ≤ f → s.length ≤ g →
      findAll2Aux f s = findAll2Aux g s := by
  intro f
  induction f with
  | zero =>
    intro g s hf _
    have hs : s = [] := List.length_eq_zero.mp (Nat.le_zero.mp hf)
    subst hs
    cases g <;> rfl
  | succ f ih =>
    intro g s hf hg
    cases s with
    | nil => cases g <;> rfl
    | cons c rest =>
      cases g with
      | zero => simp at hg
      | succ g =>
        simp only [findAll2Aux]
        simp only [List.length_cons, Nat.succ_le_succ_iff] at hf hg
        cases hm : matchP2 (c :: rest) with
        | none => rw [ih g rest hf hg]
        | some m =>
          dsimp only
          have hpos := matchP2_length_pos hm
          have hlen : ((c :: rest).drop m.length).length ≤ rest.length := by
            simp only [List.length_drop, List.length_cons]
            omega
          rw [ih g _ (le_trans hlen hf) (le_trans hlen hg)]

/-- Python `re.findall` for the dotted-module pattern, at the canonical fuel. -/
def findAll2 (s : Str) : List Str := findAll2Aux s.length s

/-- The wrapper `findAll2` satisfies the intended scan recurrence. -/
theorem findAll2_cons (c : Char) (rest : Str) :
    findAll2 (c :: rest) =
      match matchP2 (c :: rest) with
      | some m => m :: findAll2 ((c :: rest).drop m.length)
      | Option.none => findAll2 rest := by
  show findAll2Aux (rest.length + 1) (c :: rest) = _
  simp only [findAll2Aux, findAll2]
  cases hm : matchP2 (c :: rest) with
  | none => rfl
  | some m =>
    dsimp only
    have hpos := matchP2_length_pos hm
    have hlen : ((c :: rest).drop m.length).length ≤ rest.length := by
      simp only [List.length_drop, List.length_cons]
      omega
    rw [findAll2Aux_congr rest.length _ _ hlen le_rfl]

/-- The `DriftDetector._extract_file_references`: matches of both patterns,
lower-cased, as a set (deduplicated list). -/
def extractFileRefs (text : Str) : List Str :=
  ((findAll1 text ++ findAll2 text).map pyLower).dedup

/-! ## Reference resolver (`_check_explicit_reference`) -/

/-- One attempted match of the case-insensitive, word-bounded `TASK-<digits>`
pattern at the head of `s`, given the preceding character (`Option.none` at
the start of the string); returns the digit group on success. -/
def taskRefAt (prev : Option Char) (s : Str) : Option Str :=
  if (match prev with | Option.none => true | some p => !isWordChar p) then
    match dropPrefixCI ("task-".data) s with
    | some rest =>
      let digits := rest.takeWhile isAsciiDigit
      if digits.isEmpty then Option.none
      else
        match rest.drop digits.length with
        | [] => some digits
        | c :: _ => if isWordChar c then Option.none else some digits
    | Option.none => Option.none
  else Option.none

/-- The `re.search` scan for the task-reference pattern: leftmost match wins. -/
def findTaskRefAux : Option Char → Str → Option Str
  | _, [] => Option.none
  | prev, c :: rest =>
    match taskRefAt prev (c :: rest) with
    | some d => some d
    | Option.none => findTaskRefAux (some c) rest

/-- The first `TASK-<digits>` token of the prompt (its digit group), if any. -/
def findTaskRef (s : Str) : Option Str := findTaskRefAux Option.none s

/-- The `DriftDetector._check_explicit_reference`. -/
def checkExplicitReference (tasks : List Task) (prompt : Str) : Option DriftResult :=
  match findTaskRef prompt with
  | Option.none => Option.none
  | some digits =>
    let task_id := "TASK-".data ++ digits
    match tasks.find? (fun t => pyUpper t.id == pyUpper task_id) with
    | some t =>
      some { matched_task := some t, confidence := 1,
             match_strength := MatchStrength.strong,
             match_reasons := ["Explicit task reference".data] }
    | Option.none =>
      some { confidence := 0, match_strength := MatchStrength.none,
             suggested_title := some ("Work on ".data ++ task_id),
             match_reasons := ["Referenced ".data ++ task_id ++ " but not in active tasks".data] }

/-! ## Query classifier (`_is_informational_query`) -/

/-- The regex fragment `.*LIT` from the current position: an occurrence of
`lit` further right with no newline before it (`.` does not match newline). -/
def dotStarThen (lit : Str) : Str → Bool
  | [] => lit.isEmpty
  | c :: t => lit.isPrefixOf (c :: t) || (c ≠ '\n' && dotStarThen lit t)

/-- A start-anchored pattern `PRE.*LIT`. -/
def preDotStar (pre : String) (lit : String) (pl : Str) : Bool :=
  pre.data.isPrefixOf pl && dotStarThen lit.data (pl.drop pre.data.length)

/-- The ordered pattern table of `_is_informational_query`, applied to the
lower-cased, stripped prompt. -/
def infoMatch (pl : Str) : Bool :=
  ("what".data ++ apos :: "s the status".data).isPrefixOf pl ||
  "what is the status".data.isPrefixOf pl ||
  (("how".data ++ apos :: "s ".data).isPrefixOf pl &&
    dotStarThen " going".data (pl.drop 6)) ||
  preDotStar "how is " " going" pl ||
  "show me".data.isPrefixOf pl ||
  "list".data.isPrefixOf pl ||
  "tell me about".data.isPrefixOf pl ||
  "explain".data.isPrefixOf pl ||
  preDotStar "what does " " do" pl ||
  preDotStar "how does " " work" pl ||
  "where is".data.isPrefixOf pl ||
  ("can you ".data.isPrefixOf pl &&
    ("show".data.isPrefixOf (pl.drop 8) || "explain".data.isPrefixOf (pl.drop 8) ||
     "tell".data.isPrefixOf (pl.drop 8)))

/-- The `DriftDetector._is_informational_query`. -/
def isInformationalQuery (prompt : Str) : Bool :=
  infoMatch (pyStrip (pyLower prompt))

/-! ## Lexical matcher (`_score_task_match`, `_score_to_strength`) -/

/-- Lexicographic (code-point) string comparison, Python's `<=` on `str`. -/
def lexLe : Str → Str → Bool
  | [], _ => true
  | _ :: _, [] => false
  | a :: as, b :: bs => if a < b then true else if b < a then false else lexLe as bs

def insertSorted (x : Str) : List Str → List Str
  | [] => [x]
  | y :: ys => if lexLe x y then x :: y :: ys else y :: insertSorted x ys

/-- Python `sorted` on a set of strings. -/
def sortStrs : List Str → List Str
  | [] => []
  | x :: xs => insertSorted x (sortStrs xs)

/-- Python `", ".join`. -/
def joinComma (xs : List Str) : Str := List.intercalate (", ".data) xs

/-- Computes `task_text = task.title` plus `" " + task.context` when the context is
truthy (present and non-empty). -/
def taskTextOf (task : Task) : Str :=
  match task.context with
  | some c => if c.isEmpty then task.title else task.title ++ ' ' :: c
  | Option.none => task.title

/-- Python `task_file.split("/")[-1]`: the part after the last slash. -/
def lastComponent (s : Str) : Str :=
  (s.reverse.takeWhile (fun c => c ≠ '/')).reverse

/-- Python `re.sub(r"\.[^.]+$", "", name)`: strip a final dot-extension (the
extension must be non-empty and dot-free), if present. -/
def stripExt (name : Str) : Str :=
  let r := name.reverse
  let ext := r.takeWhile (fun c => c ≠ '.')
  if ext.isEmpty then name
  else
    match r.drop ext.length with
    | '.' :: r2 => r2.reverse
    | _ => name

/-- Keyword-overlap signal block of `_score_task_match` (weight 0.6 of the
overlap ratio): contributed scores and reasons. -/
def kwPartOf (prompt_keywords task_keywords : List Str) : List ℚ × List Str :=
  if !prompt_keywords.isEmpty && !task_keywords.isEmpty then
    let overlap := prompt_keywords.filter (fun w => task_keywords.contains w)
    let keyword_score : ℚ := (overlap.length : ℚ) / ((max prompt_keywords.length 1 : ℕ) : ℚ)
    if !overlap.isEmpty then
      ([keyword_score * 0.6], ["Keywords: ".data ++ joinComma ((sortStrs overlap).take 3)])
    else ([], [])
  else ([], [])

/-- Linked-file overlap signal block of `_score_task_match` (flat 0.8). -/
def filePartOf (task : Task) (prompt_files : List Str) : List ℚ × List Str :=
  if !task.linked_files.isEmpty && !prompt_files.isEmpty then
    let task_files := task.linked_files.map pyLower
    let file_overlap := prompt_files.filter (fun f => task_files.contains f)
    if !file_overlap.isEmpty then
      ([0.8], ["Files: ".data ++ joinComma ((sortStrs file_overlap).take 2)])
    else ([], [])
  else ([], [])

/-- Loose file-basename signal block of `_score_task_match` (flat 0.5, first
linked file whose basename occurs in the lower-cased prompt). -/
def basePartOf (task : Task) (prompt : Str) : List ℚ × List Str :=
  match task.linked_files.find?
      (fun f => containsSub (pyLower (stripExt (lastComponent f))) (pyLower prompt)) with
  | some f => ([0.5], ["File reference: ".data ++ f])
  | Option.none => ([], [])

/-- Task-type bonus block of `_score_task_match` (+0.3 bug / +0.2 feature,
mutually exclusive). -/
def typePartOf (task : Task) (prompt : Str) : List ℚ × List Str :=
  if task.type == TaskType.bug &&
      BUG_INDICATORS.any (fun w => containsSub w (pyLower prompt)) then
    ([0.3], ["Bug-related request".data])
  else if task.type == TaskType.feature &&
      FEATURE_INDICATORS.any (fun w => containsSub w (pyLower prompt)) then
    ([0.2], ["Feature-related request".data])
  else ([], [])

/-- The `DriftDetector._score_task_match`: the four signal blocks in source order,
summed and capped at 1.0; `(0.0, [])` when no signal fired. -/
def scoreTaskMatch (task : Task) (prompt_keywords prompt_files : List Str)
    (prompt : Str) : ℚ × List Str :=
  let task_keywords := extractKeywords (taskTextOf task)
  let scores := (kwPartOf prompt_keywords task_keywords).1 ++
    (filePartOf task prompt_files).1 ++ (basePartOf task prompt).1 ++
    (typePartOf task prompt).1
  let reasons := (kwPartOf prompt_keywords task_keywords).2 ++
    (filePartOf task prompt_files).2 ++ (basePartOf task prompt).2 ++
    (typePartOf task prompt).2
  if scores.isEmpty then (0, []) else (min scores.sum 1, reasons)

/-- The `DriftDetector._score_to_strength`. -/
def scoreToStrength (score : ℚ) : MatchStrength :=
  if score > 0.8 then MatchStrength.strong
  else if score ≥ 0.4 then MatchStrength.weak
  else MatchStrength.none

/-! ## Title suggestion (`_suggest_title`) -/

/-- One `re.sub(r"^(word\s+)?", "", title)` step: strip a leading instance of
`word` (case-insensitively) followed by at least one whitespace character. -/
def stripPrefixWord (word : Str) (title : Str) : Str :=
  match dropPrefixCI word title with
  | some rest =>
    let sp := rest.takeWhile pyIsSpace
    if sp.isEmpty then title else rest.drop sp.length
  | Option.none => title

/-- The ordered prefix list of `_suggest_title` (lower-cased pattern words). -/
def TITLE_PREFIXES : List Str :=
  ["please".data, "can you".data, "could you".data, "i want to".data,
   "i need to".data, "help me".data, "let".data ++ apos :: "s".data]

/-- Python `str.capitalize`: first character upper-cased, the rest lower-cased. -/
def pyCapitalize : Str → Str
  | [] => []
  | c :: rest => upperChar c :: rest.map lowerChar

/-- The 60-character truncation of `_suggest_title` (57 characters plus an
ellipsis marker when longer). -/
def truncate60 (title : Str) : Str :=
  if 60 < title.length then title.take 57 ++ "...".data else title

/-- The bug-vocabulary branch of `_suggest_title`: prepend `"Fix: "` when the
title contains a bug word and does not already start with `"fix"`; the
feature and refactor branches of the source are no-ops. -/
def fixPrefixStep (title : Str) : Str :=
  let tl := pyLower title
  if BUG_INDICATORS.any (fun w => containsSub w tl) then
    (if ("fix".data).isPrefixOf tl then title else "Fix: ".data ++ title)
  else title

/-- The `DriftDetector._suggest_title`. -/
def suggestTitle (prompt : Str) : Str :=
  let t0 := pyStrip prompt
  let t1 := TITLE_PREFIXES.foldl (fun t w => stripPrefixWord w t) t0
  let t2 := pyCapitalize (pyStrip t1)
  let t3 := truncate60 t2
  let t4 := fixPrefixStep t3
  if t4.isEmpty then "New task".data else t4

/-! ## Detection entry points (`check_drift`, `check_drift_async`) -/

/-- The best-scoring-task scan of `check_drift`: strict improvement only, so
the first candidate reaching the maximum is kept. -/
def bestScan (d : DriftDetector) (prompt_keywords prompt_files : List Str)
    (prompt : Str) : ℚ × Option DriftResult :=
  d.tasks.foldl
    (fun acc task =>
      let sr := scoreTaskMatch task prompt_keywords prompt_files prompt
      if acc.1 < sr.1 then
        (sr.1, some { matched_task := some task, confidence := sr.1,
                      match_strength := scoreToStrength sr.1,
                      match_reasons := sr.2 })
      else acc)
    (0, Option.none)

/-- The `DriftDetector.check_drift`, the synchronous local pipeline. -/
def check_drift (d : DriftDetector) (prompt : Str) : DriftResult :=
  if (pyStrip prompt).isEmpty then
    { suggested_title := some ("Empty request".data) }
  else
    match checkExplicitReference d.tasks prompt with
    | some r => r
    | Option.none =>
      if isInformationalQuery prompt then
        { confidence := 1, match_strength := MatchStrength.strong,
          match_reasons := ["Informational query - not a task".data] }
      else
        match bestScan d (extractKeywords prompt) (extractFileRefs prompt) prompt with
        | (best_score, Option.none) =>
          { confidence := best_score, match_strength := MatchStrength.none,
            suggested_title := some (suggestTitle prompt) }
        | (best_score, some best) =>
          if best_score < 0.4 then
            { matched_task := best.matched_task, confidence := best_score,
              match_strength := MatchStrength.none,
              suggested_title := some (suggestTitle prompt),
              match_reasons := best.match_reasons }
          else best

/-- Python `" ".join(list(keywords)[:5])`, the fallback search query. -/
def searchQueryOf (prompt : Str) : Str :=
  List.intercalate (" ".data) ((extractKeywords prompt).take 5)

/-- The `DriftDetector._check_jira_fallback`.  The second component instruments
the call: it is `true` exactly when the remote search capability was invoked
(the `await ...search_issues(...)` expression was evaluated). -/
def checkJiraFallback (d : DriftDetector) (prompt : Str) : Option DriftResult × Bool :=
  match d.jira_client with
  | Option.none => (Option.none, false)
  | some search =>
    let keywords := extractKeywords prompt
    if keywords.length < 2 then (Option.none, false)
    else
      match search (searchQueryOf prompt) d.jira_project_key with
      | Except.error _ => (Option.none, true)
      | Except.ok [] => (Option.none, true)
      | Except.ok (best :: _) =>
        (some { confidence := 0.6, match_strength := MatchStrength.weak,
                match_reasons := ["Jira search match: ".data ++ best.key],
                jira_issue := some best }, true)

/-- The `DriftDetector.check_drift_async`.  The second component propagates the
remote-search-invoked instrumentation bit of `checkJiraFallback`. -/
def checkDriftAsync (d : DriftDetector) (prompt : Str) : DriftResult × Bool :=
  let result := check_drift d prompt
  if result.match_strength == MatchStrength.strong || d.jira_client.isNone then
    (result, false)
  else if result.match_strength == MatchStrength.none then
    match checkJiraFallback d prompt with
    | (some jira_result, invoked) => (jira_result, invoked)
    | (Option.none, invoked) => (result, invoked)
  else (result, false)


/-! ## Helper lemmas -/

theorem pyStrip_eq_nil_iff (s : Str) :
    pyStrip s = [] ↔ ∀ c ∈ s, pyIsSpace c = true := by
  unfold pyStrip
  rw [List.reverse_eq_nil_iff, List.dropWhile_eq_nil_iff]
  simp only [List.mem_reverse]
  constructor
  · intro h c hc
    have hsplit : c ∈ s.takeWhile pyIsSpace ++ s.dropWhile pyIsSpace := by
      rw [List.takeWhile_append_dropWhile]
      exact hc
    rcases List.mem_append.mp hsplit with h1 | h2
    · exact List.mem_takeWhile_imp h1
    · exact h c h2
  · intro h c hc
    exact h c ((List.dropWhile_sublist pyIsSpace).mem hc)

theorem pyIsSpace_lowerChar {c : Char} (h : pyIsSpace c = true) : lowerChar c = c := by
  simp only [pyIsSpace, Bool.or_eq_true, decide_eq_true_eq] at h
  rcases h with ((((h | h) | h) | h) | h) | h <;> subst h <;> decide

theorem pyStrip_pyLower_eq_nil {s : Str} (h : pyStrip s = []) :
    pyStrip (pyLower s) = [] := by
  rw [pyStrip_eq_nil_iff] at h ⊢
  intro c hc
  rcases List.mem_map.mp hc with ⟨a, ha, rfl⟩
  rw [pyIsSpace_lowerChar (h a ha)]
  exact h a ha

theorem infoMatch_nil : infoMatch [] = false := by decide

theorem isInformational_strip_ne {prompt : Str}
    (h : isInformationalQuery prompt = true) : pyStrip prompt ≠ [] := by
  intro hnil
  rw [isInformationalQuery, pyStrip_pyLower_eq_nil hnil, infoMatch_nil] at h
  cases h

theorem isEmpty_false_of_ne_nil {α : Type _} {s : List α} (h : s ≠ []) : s.isEmpty = false := by
  cases s with
  | nil => exact absurd rfl h
  | cons c t => rfl

theorem checkExplicitReference_none {tasks : List Task} {prompt : Str}
    (href : findTaskRef prompt = Option.none) :
    checkExplicitReference tasks prompt = Option.none := by
  unfold checkExplicitReference
  rw [href]

theorem checkExplicitReference_found {tasks : List Task} {prompt digits : Str} {t : Task}
    (href : findTaskRef prompt = some digits)
    (hfind : tasks.find? (fun t => pyUpper t.id == pyUpper ("TASK-".data ++ digits)) = some t) :
    checkExplicitReference tasks prompt =
      some { matched_task := some t, confidence := 1,
             match_strength := MatchStrength.strong,
             suggested_title := Option.none,
             match_reasons := ["Explicit task reference".data],
             jira_issue := Option.none } := by
  unfold checkExplicitReference
  rw [href]
  dsimp only
  rw [hfind]

theorem checkExplicitReference_missing {tasks : List Task} {prompt digits : Str}
    (href : findTaskRef prompt = some digits)
    (hfind : tasks.find? (fun t => pyUpper t.id == pyUpper ("TASK-".data ++ digits)) =
      Option.none) :
    checkExplicitReference tasks prompt =
      some { matched_task := Option.none, confidence := 0,
             match_strength := MatchStrength.none,
             suggested_title := some ("Work on ".data ++ ("TASK-".data ++ digits)),
             match_reasons :=
               ["Referenced ".data ++ ("TASK-".data ++ digits) ++ " but not in active tasks".data],
             jira_issue := Option.none } := by
  unfold checkExplicitReference
  rw [href]
  dsimp only
  rw [hfind]

/-! ## Claim theorems -/

/-- C2: the shared score-to-strength mapping returns Strong exactly when the
score exceeds 0.8, Weak exactly when it lies in [0.4, 0.8], and None exactly
when it is below 0.4; in particular 0.8 and 0.4 map to Weak and 0.39999 maps
to None. -/
theorem scoreToStrength_boundaries :
    (∀ s : ℚ,
      (scoreToStrength s = MatchStrength.strong ↔ 0.8 < s) ∧
      (scoreToStrength s = MatchStrength.weak ↔ 0.4 ≤ s ∧ s ≤ 0.8) ∧
      (scoreToStrength s = MatchStrength.none ↔ s < 0.4)) ∧
    scoreToStrength 0.8 = MatchStrength.weak ∧
    scoreToStrength 0.4 = MatchStrength.weak ∧
    scoreToStrength 0.39999 = MatchStrength.none := by
  refine ⟨fun s => ?_, ?_, ?_, ?_⟩
  · unfold scoreToStrength
    split_ifs with h1 h2
    · refine ⟨⟨fun _ => h1, fun _ => rfl⟩,
        ⟨fun h => absurd h (by intro h; cases h), fun h => absurd h1 (not_lt.mpr h.2)⟩,
        ⟨fun h => absurd h (by intro h; cases h), fun h => absurd h1 (by linarith)⟩⟩
    · have hle : s ≤ 0.8 := not_lt.mp h1
      refine ⟨⟨fun h => absurd h (by intro h; cases h), fun h => absurd h h1⟩,
        ⟨fun _ => ⟨h2, hle⟩, fun _ => rfl⟩,
        ⟨fun h => absurd h (by intro h; cases h), fun h => absurd h2 (not_le.mpr h)⟩⟩
    · have hlt : s < 0.4 := not_le.mp h2
      refine ⟨⟨fun h => absurd h (by intro h; cases h), fun h => absurd h1 (by linarith)⟩,
        ⟨fun h => absurd h (by intro h; cases h), fun h => absurd h.1 (not_le.mpr hlt)⟩,
        ⟨fun _ => hlt, fun _ => rfl⟩⟩
  · with_unfolding_all decide
  · with_unfolding_all decide
  · with_unfolding_all decide

/-- C9: a whitespace-only prompt short-circuits detection with the
"Empty request" suggestion, no matched task, confidence 0 and strength None,
for every candidate list. -/
theorem check_drift_empty_prompt (d : DriftDetector) (prompt : Str)
    (h : pyStrip prompt = []) :
    check_drift d prompt =
      { matched_task := Option.none, confidence := 0,
        match_strength := MatchStrength.none,
        suggested_title := some ("Empty request".data),
        match_reasons := [], jira_issue := Option.none } := by
  unfold check_drift
  rw [h]
  rfl

theorem check_drift_empty_prompt_witness :
    pyStrip ("  ".data) = [] ∧
    check_drift { tasks := [] } "  ".data =
      { matched_task := Option.none, confidence := 0,
        match_strength := MatchStrength.none,
        suggested_title := some ("Empty request".data),
        match_reasons := [], jira_issue := Option.none } :=
  ⟨by decide, check_drift_empty_prompt { tasks := [] } "  ".data (by decide)⟩

/-- C3: a non-whitespace prompt containing a word-bounded, case-insensitive
`TASK-<digits>` token (first occurrence) short-circuits detection: if a task
with that identifier is in the candidate list, the result is that task with
Strong strength, confidence 1 and reason "Explicit task reference"; otherwise
a None-strength result with confidence 0, no matched task, and suggested
title "Work on TASK-<digits>". -/
theorem check_drift_explicit_reference (d : DriftDetector) (prompt digits : Str)
    (hws : pyStrip prompt ≠ [])
    (href : findTaskRef prompt = some digits) :
    (∀ t : Task,
      d.tasks.find? (fun t => pyUpper t.id == pyUpper ("TASK-".data ++ digits)) = some t →
        check_drift d prompt =
          { matched_task := some t, confidence := 1,
            match_strength := MatchStrength.strong,
            suggested_title := Option.none,
            match_reasons := ["Explicit task reference".data],
            jira_issue := Option.none }) ∧
    (d.tasks.find? (fun t => pyUpper t.id == pyUpper ("TASK-".data ++ digits)) = Option.none →
        check_drift d prompt =
          { matched_task := Option.none, confidence := 0,
            match_strength := MatchStrength.none,
            suggested_title := some ("Work on ".data ++ ("TASK-".data ++ digits)),
            match_reasons :=
              ["Referenced ".data ++ ("TASK-".data ++ digits) ++ " but not in active tasks".data],
            jira_issue := Option.none }) := by
  constructor
  · intro t hfind
    unfold check_drift
    rw [isEmpty_false_of_ne_nil hws, checkExplicitReference_found href hfind]
    rfl
  · intro hfind
    unfold check_drift
    rw [isEmpty_false_of_ne_nil hws, checkExplicitReference_missing href hfind]
    rfl

def exTask7 : Task :=
  { id := "TASK-7".data, title := "Improve dashboard".data, status := TaskStatus.active,
    type := TaskType.feature, created_by := Origin.human, created_at := 0, updated_at := 0,
    context := Option.none, linked_files := [] }

theorem check_drift_explicit_reference_witness :
    check_drift { tasks := [exTask7] } "start task-7 now".data =
      { matched_task := some exTask7, confidence := 1,
        match_strength := MatchStrength.strong,
        suggested_title := Option.none,
        match_reasons := ["Explicit task reference".data],
        jira_issue := Option.none } :=
  (check_drift_explicit_reference { tasks := [exTask7] } "start task-7 now".data "7".data
    (by decide) (by decide)).1 exTask7 (by decide)

/-- C4: a prompt with no explicit task reference whose trimmed, lower-cased
form matches one of the fixed start-anchored informational patterns yields
confidence 1, Strong strength, no matched task, and the single reason
"Informational query - not a task", regardless of the candidate list. -/
theorem check_drift_informational (d : DriftDetector) (prompt : Str)
    (href : findTaskRef prompt = Option.none)
    (hinfo : isInformationalQuery prompt = true) :
    check_drift d prompt =
      { matched_task := Option.none, confidence := 1,
        match_strength := MatchStrength.strong, suggested_title := Option.none,
        match_reasons := ["Informational query - not a task".data],
        jira_issue := Option.none } := by
  unfold check_drift
  rw [isEmpty_false_of_ne_nil (isInformational_strip_ne hinfo),
    checkExplicitReference_none href]
  dsimp only
  rw [hinfo]
  rfl

theorem check_drift_informational_witness :
    check_drift { tasks := [exTask7] } "Show me the current tasks".data =
      { matched_task := Option.none, confidence := 1,
        match_strength := MatchStrength.strong, suggested_title := Option.none,
        match_reasons := ["Informational query - not a task".data],
        jira_issue := Option.none } :=
  check_drift_informational { tasks := [exTask7] } "Show me the current tasks".data
    (by decide) (by decide)


/-! ## C1: the lexical score as the spec states it -/

/-- Written from the spec wording (C1): keyword signal, 0.6 times the overlap
ratio, contributing only when the overlap is non-empty. -/
def specKeywordSignal (prompt_keywords task_keywords : List Str) : ℚ :=
  if (prompt_keywords.filter (fun w => task_keywords.contains w)).isEmpty then 0
  else 0.6 * ((prompt_keywords.filter (fun w => task_keywords.contains w)).length : ℚ) /
    (prompt_keywords.length : ℚ)

/-- Written from the spec wording (C1): a flat 0.8 when any file token of the
prompt intersects the task's linked files, case-insensitively. -/
def specFileSignal (task : Task) (prompt_files : List Str) : ℚ :=
  if prompt_files.any (fun f => (task.linked_files.map pyLower).contains f) then 0.8 else 0

/-- Written from the spec wording (C1): a flat, additive 0.5 when some linked
file's basename (directory prefix and extension stripped, lower-cased) occurs
as a substring of the lower-cased prompt, counted at most once per task. -/
def specBasenameSignal (task : Task) (prompt : Str) : ℚ :=
  if task.linked_files.any
      (fun f => containsSub (pyLower (stripExt (lastComponent f))) (pyLower prompt)) then 0.5
  else 0

/-- Written from the spec wording (C1): +0.3 for a Bug task when the prompt
contains a bug-vocabulary word, else +0.2 for a Feature task when it contains
a feature-vocabulary word, the two branches mutually exclusive. -/
def specTypeBonus (task : Task) (prompt : Str) : ℚ :=
  if task.type == TaskType.bug &&
      BUG_INDICATORS.any (fun w => containsSub w (pyLower prompt)) then 0.3
  else if task.type == TaskType.feature &&
      FEATURE_INDICATORS.any (fun w => containsSub w (pyLower prompt)) then 0.2
  else 0

/-- Written from the spec wording (C1): the aggregate lexical match score,
the sum of the four independent signals with the 1.0 cap applied only to the
aggregate. -/
def specLexicalScore (task : Task) (prompt_keywords prompt_files : List Str)
    (prompt : Str) : ℚ :=
  min 1 (specKeywordSignal prompt_keywords (extractKeywords (taskTextOf task)) +
    specFileSignal task prompt_files + specBasenameSignal task prompt +
    specTypeBonus task prompt)

theorem kwPartOf_sum (pk tk : List Str) :
    (kwPartOf pk tk).1.sum = specKeywordSignal pk tk := by
  unfold kwPartOf specKeywordSignal
  rcases ho : pk.filter (fun w => tk.contains w) with _ | ⟨w, ws⟩
  · simp only [List.isEmpty_nil, if_true]
    split_ifs <;> simp_all
  · have hw : w ∈ pk.filter (fun w => tk.contains w) := by rw [ho]; exact List.mem_cons_self w ws
    have hwpk : w ∈ pk := List.mem_of_mem_filter hw
    have hwtk : tk.contains w = true := List.of_mem_filter hw
    have hpk : pk ≠ [] := List.ne_nil_of_mem hwpk
    have htk : tk ≠ [] := by
      intro h
      subst h
      simp at hwtk
    have hpk1 : 1 ≤ pk.length := List.length_pos.mpr hpk
    rw [isEmpty_false_of_ne_nil hpk, isEmpty_false_of_ne_nil htk]
    simp only [Bool.not_false, Bool.and_self, if_true, List.isEmpty_cons,
      Bool.false_eq_true, if_false]
    rw [Nat.max_eq_left hpk1]
    simp only [List.sum_cons, List.sum_nil, add_zero]
    ring

theorem filePartOf_sum (task : Task) (pf : List Str) :
    (filePartOf task pf).1.sum = specFileSignal task pf := by
  unfold filePartOf specFileSignal
  rcases ho : pf.filter (fun f => (task.linked_files.map pyLower).contains f) with _ | ⟨f, fs⟩
  · have hflt := List.filter_eq_nil_iff.mp ho
    have hany : pf.any (fun f => (task.linked_files.map pyLower).contains f) = false := by
      rw [← Bool.not_eq_true, List.any_eq_true]
      rintro ⟨x, hx, hpx⟩
      exact hflt x hx hpx
    rw [hany]
    split_ifs <;> simp_all
  · have hf : f ∈ pf.filter (fun f => (task.linked_files.map pyLower).contains f) := by
      rw [ho]; exact List.mem_cons_self f fs
    have hfpf : f ∈ pf := List.mem_of_mem_filter hf
    have hftf : (task.linked_files.map pyLower).contains f = true := List.of_mem_filter hf
    have hpf : pf ≠ [] := List.ne_nil_of_mem hfpf
    have hlf : task.linked_files ≠ [] := by
      intro h
      rw [h] at hftf
      simp at hftf
    have hany : pf.any (fun f => (task.linked_files.map pyLower).contains f) = true :=
      List.any_eq_true.mpr ⟨f, hfpf, hftf⟩
    rw [hany, isEmpty_false_of_ne_nil hpf, isEmpty_false_of_ne_nil hlf]
    simp only [Bool.not_false, Bool.and_self, if_true]
    rw [ho]
    simp

theorem basePartOf_sum (task : Task) (prompt : Str) :
    (basePartOf task prompt).1.sum = specBasenameSignal task prompt := by
  unfold basePartOf specBasenameSignal
  rcases hfind : task.linked_files.find?
      (fun f => containsSub (pyLower (stripExt (lastComponent f))) (pyLower prompt)) with _ | f
  · have hany : task.linked_files.any
        (fun f => containsSub (pyLower (stripExt (lastComponent f))) (pyLower prompt)) = false := by
      rw [List.any_eq_false]
      intro x hx
      have := List.find?_eq_none.mp hfind x hx
      simpa using this
    rw [hany]
    simp
  · have hmem := List.mem_of_find?_eq_some hfind
    have hp := List.find?_some hfind
    have hany : task.linked_files.any
        (fun f => containsSub (pyLower (stripExt (lastComponent f))) (pyLower prompt)) = true :=
      List.any_eq_true.mpr ⟨f, hmem, hp⟩
    rw [hany]
    simp

theorem typePartOf_sum (task : Task) (prompt : Str) :
    (typePartOf task prompt).1.sum = specTypeBonus task prompt := by
  unfold typePartOf specTypeBonus
  split_ifs <;> simp

/-- C1: for every candidate task and every prompt (and any extracted keyword
and file-token sets), the lexical match score of `_score_task_match` equals
the spec formula `min(1, keyword-signal + file-signal + basename-signal +
type-bonus)`, and a task with no firing signal scores exactly 0. -/
theorem scoreTaskMatch_eq_specLexicalScore :
    ∀ (task : Task) (pk pf : List Str) (prompt : Str),
      (scoreTaskMatch task pk pf prompt).1 = specLexicalScore task pk pf prompt ∧
      (specKeywordSignal pk (extractKeywords (taskTextOf task)) = 0 ∧
          specFileSignal task pf = 0 ∧ specBasenameSignal task prompt = 0 ∧
          specTypeBonus task prompt = 0 →
        (scoreTaskMatch task pk pf prompt).1 = 0) := by
  intro task pk pf prompt
  have hsum :
      ((kwPartOf pk (extractKeywords (taskTextOf task))).1 ++ (filePartOf task pf).1 ++
          (basePartOf task prompt).1 ++ (typePartOf task prompt).1).sum =
        specKeywordSignal pk (extractKeywords (taskTextOf task)) + specFileSignal task pf +
          specBasenameSignal task prompt + specTypeBonus task prompt := by
    rw [List.sum_append, List.sum_append, List.sum_append,
      kwPartOf_sum, filePartOf_sum, basePartOf_sum, typePartOf_sum]
  have hmain :
      (scoreTaskMatch task pk pf prompt).1 = specLexicalScore task pk pf prompt := by
    unfold scoreTaskMatch specLexicalScore
    by_cases h :
        ((kwPartOf pk (extractKeywords (taskTextOf task))).1 ++ (filePartOf task pf).1 ++
          (basePartOf task prompt).1 ++ (typePartOf task prompt).1).isEmpty
    · rw [if_pos h]
      rw [List.isEmpty_iff] at h
      rw [h] at hsum
      simp only [List.sum_nil] at hsum
      rw [← hsum]
      norm_num
    · rw [if_neg h]
      dsimp only
      rw [hsum, min_comm]
  refine ⟨hmain, fun hzero => ?_⟩
  rw [hmain]
  unfold specLexicalScore
  rw [hzero.1, hzero.2.1, hzero.2.2.1, hzero.2.2.2]
  norm_num

theorem scoreTaskMatch_eq_specLexicalScore_witness :
    (scoreTaskMatch exTask7 [] [] "hello".data).1 = 0 :=
  (scoreTaskMatch_eq_specLexicalScore exTask7 [] [] "hello".data).2
    (by with_unfolding_all decide)


/-! ## C7: primary-outcome exclusivity -/

/-- A Bug-typed task lexically unrelated to the counterexample prompt. -/
def cexTask : Task :=
  { id := "TASK-3".data, title := "Improve dashboard".data, status := TaskStatus.active,
    type := TaskType.bug, created_by := Origin.human, created_at := 0, updated_at := 0,
    context := Option.none, linked_files := [] }

def cexDetector : DriftDetector := { tasks := [cexTask] }

def cexPrompt : Str := "something broken zzz".data

/-- C7 fails on the code: on this prompt the best lexical score is 0.3 (below
0.4, bug-type bonus only), and the returned result carries BOTH a matched
task and a suggested title — two primary outcomes at once, and a task is
matched even though the claim says none is. -/
theorem drift_result_dual_outcome_counterexample :
    (check_drift cexDetector cexPrompt).confidence < 0.4 ∧
    (check_drift cexDetector cexPrompt).match_strength = MatchStrength.none ∧
    (check_drift cexDetector cexPrompt).matched_task = some cexTask ∧
    (check_drift cexDetector cexPrompt).suggested_title ≠ Option.none := by
  with_unfolding_all decide

/-- C7 (amended): when the best lexical score is below 0.4 the result carries
a suggested title and match-strength None, but the best-scoring candidate (if
any candidate scored above zero) is retained in the matched-task field, so a
suggested title and a matched task can coexist; the matched-task field is
None exactly when no candidate scored above zero. -/
theorem check_drift_low_score_amended (d : DriftDetector) (prompt : Str)
    (hws : pyStrip prompt ≠ [])
    (href : checkExplicitReference d.tasks prompt = Option.none)
    (hinfo : isInformationalQuery prompt = false)
    (hlow : (bestScan d (extractKeywords prompt) (extractFileRefs prompt) prompt).1 < 0.4) :
    (check_drift d prompt).suggested_title = some (suggestTitle prompt) ∧
    (check_drift d prompt).match_strength = MatchStrength.none ∧
    (check_drift d prompt).matched_task =
      ((bestScan d (extractKeywords prompt) (extractFileRefs prompt) prompt).2.bind
        DriftResult.matched_task) := by
  unfold check_drift
  rw [isEmpty_false_of_ne_nil hws, href]
  dsimp only
  rw [hinfo]
  simp only [Bool.false_eq_true, if_false]
  rcases hb : bestScan d (extractKeywords prompt) (extractFileRefs prompt) prompt
    with ⟨bs, _ | best⟩
  · rw [hb] at hlow
    exact ⟨rfl, rfl, rfl⟩
  · rw [hb] at hlow
    simp only at hlow ⊢
    rw [if_pos hlow]
    exact ⟨rfl, rfl, rfl⟩

theorem check_drift_low_score_amended_witness :
    (check_drift cexDetector cexPrompt).suggested_title = some (suggestTitle cexPrompt) ∧
    (check_drift cexDetector cexPrompt).match_strength = MatchStrength.none ∧
    (check_drift cexDetector cexPrompt).matched_task =
      ((bestScan cexDetector (extractKeywords cexPrompt) (extractFileRefs cexPrompt)
          cexPrompt).2.bind DriftResult.matched_task) :=
  check_drift_low_score_amended cexDetector cexPrompt
    (by with_unfolding_all decide) (by with_unfolding_all decide)
    (by with_unfolding_all decide) (by with_unfolding_all decide)

/-! ## C8: title suggestion pipeline -/

/-- Written from the claim wording (C8): capitalise only the first letter,
leaving the remaining characters unchanged. -/
def capitalizeFirstOnly : Str → Str
  | [] => []
  | c :: rest => upperChar c :: rest

/-- Written from the claim wording (C8): trim, strip the polite prefixes,
capitalise the first letter, truncate to 60 characters, prepend "Fix: " for
bug vocabulary, falling back to "New task" when empty. -/
def claimSuggestTitle (prompt : Str) : Str :=
  let t0 := pyStrip prompt
  let t1 := TITLE_PREFIXES.foldl (fun t w => stripPrefixWord w t) t0
  let t2 := capitalizeFirstOnly (pyStrip t1)
  let t3 := truncate60 t2
  let t4 := fixPrefixStep t3
  if t4.isEmpty then "New task".data else t4

/-- C8 fails on the code: `_suggest_title` uses Python `str.capitalize`,
which also lower-cases everything after the first character, so on
"add API support" the code yields "Add api support" while the claim's
pipeline (capitalising only the first letter) yields "Add API support". -/
theorem suggest_title_capitalize_counterexample :
    suggestTitle ("add API support".data) ≠ claimSuggestTitle ("add API support".data) ∧
    suggestTitle ("add API support".data) = "Add api support".data ∧
    claimSuggestTitle ("add API support".data) = "Add API support".data := by
  decide

/-- Written from the amended claim wording (C8): identical to the claim's
pipeline except that the capitalisation step is Python `str.capitalize`
(first character upper-cased, the rest lower-cased). -/
def claimSuggestTitleAmended (prompt : Str) : Str :=
  let t0 := pyStrip prompt
  let t1 := TITLE_PREFIXES.foldl (fun t w => stripPrefixWord w t) t0
  let t2 := pyCapitalize (pyStrip t1)
  let t3 := truncate60 t2
  let t4 := fixPrefixStep t3
  if t4.isEmpty then "New task".data else t4

/-- C8 (amended): the suggested title is built by trimming, stripping the
polite/imperative prefixes, capitalising the first letter AND lower-casing
the rest, truncating to 60 characters, prepending "Fix: " when the cleaned
title contains a bug word and does not already start with "fix", with the
"New task" fallback; the bug-prompt example yields a title starting with
"Fix:". -/
theorem suggest_title_pipeline_amended :
    (∀ prompt : Str, suggestTitle prompt = claimSuggestTitleAmended prompt) ∧
    ("Fix:".data).isPrefixOf
      (suggestTitle "The button is broken and crashes the app".data) = true := by
  exact ⟨fun prompt => rfl, by decide⟩

/-! ## C10: length bounds of the suggested title -/

theorem truncate60_length_le (t : Str) : (truncate60 t).length ≤ 60 := by
  unfold truncate60
  split_ifs with h
  · simp only [List.length_append, List.length_take, List.length_cons, List.length_nil]
    omega
  · omega

theorem fixPrefixStep_length_le (t : Str) :
    (fixPrefixStep t).length ≤ t.length + 5 := by
  unfold fixPrefixStep
  dsimp only
  split_ifs <;>
    first
    | omega
    | (simp only [List.length_append, List.length_cons, List.length_nil]; omega)

/-- C10: the title-suggestion operation always returns a non-empty string of
at most 65 characters: the 60-character truncation happens before the
5-character "Fix: " prefix, and some prompts produce titles longer than 60
characters. -/
theorem suggest_title_length_bounds :
    (∀ prompt : Str, suggestTitle prompt ≠ [] ∧ (suggestTitle prompt).length ≤ 65) ∧
    (∃ prompt : Str, 61 ≤ (suggestTitle prompt).length ∧
      (suggestTitle prompt).length ≤ 65) := by
  constructor
  · intro prompt
    unfold suggestTitle
    by_cases h :
        (fixPrefixStep (truncate60 (pyCapitalize (pyStrip
          (TITLE_PREFIXES.foldl (fun t w => stripPrefixWord w t) (pyStrip prompt)))))).isEmpty
    · rw [if_pos h]
      refine ⟨by decide, by decide⟩
    · rw [if_neg h]
      refine ⟨fun hnil => by rw [hnil] at h; exact h rfl, ?_⟩
      calc (fixPrefixStep (truncate60 (pyCapitalize (pyStrip
              (TITLE_PREFIXES.foldl (fun t w => stripPrefixWord w t)
                (pyStrip prompt)))))).length
          ≤ (truncate60 (pyCapitalize (pyStrip
              (TITLE_PREFIXES.foldl (fun t w => stripPrefixWord w t)
                (pyStrip prompt))))).length + 5 := fixPrefixStep_length_le _
        _ ≤ 65 := by have := truncate60_length_le (pyCapitalize (pyStrip
              (TITLE_PREFIXES.foldl (fun t w => stripPrefixWord w t)
                (pyStrip prompt)))); omega
  · refine ⟨"error ".data ++ List.replicate 60 'a', by decide, by decide⟩


/-! ## C5, C6: the remote fallback -/

/-- C5: the asynchronous entry point invokes the remote search exactly when
the local result has strength None, a Jira client is configured, and at least
2 keywords were extracted; a Strong or Weak local result, fewer than 2
keywords, or a missing client never triggers it. -/
theorem checkDriftAsync_invokes_iff :
    ∀ (d : DriftDetector) (prompt : Str),
      (checkDriftAsync d prompt).2 = true ↔
        ((check_drift d prompt).match_strength = MatchStrength.none ∧
          d.jira_client.isSome = true ∧
          2 ≤ (extractKeywords prompt).length) := by
  intro d prompt
  unfold checkDriftAsync checkJiraFallback
  cases hcl : d.jira_client with
  | none =>
    simp [hcl]
  | some f =>
    cases hms : (check_drift d prompt).match_strength with
    | strong => simp [hms]
    | weak => simp [hms]
    | none =>
      simp only [hms]
      by_cases hk : (extractKeywords prompt).length < 2
      · simp [hk]
      · have hk2 : 2 ≤ (extractKeywords prompt).length := Nat.le_of_not_lt hk
        cases hres : f (searchQueryOf prompt) d.jira_project_key with
        | error e => simp [hk, hres, hk2]
        | ok issues =>
          cases issues with
          | nil => simp [hk, hres, hk2]
          | cons best rest => simp [hk, hres, hk2]

/-- The fallback search yields nothing useful: it raises, or returns an
empty result sequence. -/
def fallbackYieldsNothing (r : Except Str (List JiraIssue)) : Prop :=
  (∃ e, r = Except.error e) ∨ r = Except.ok []

/-- C6: if the configured remote search raises (any exception) or returns no
results, the asynchronous detection call returns the local result unchanged —
the exception is swallowed and never propagates. -/
theorem checkDriftAsync_failure_preserves_local (d : DriftDetector) (f : SearchFn)
    (prompt : Str) (hcl : d.jira_client = some f)
    (hf : ∀ q pk, fallbackYieldsNothing (f q pk)) :
    (checkDriftAsync d prompt).1 = check_drift d prompt := by
  unfold checkDriftAsync checkJiraFallback
  rw [hcl]
  cases hms : (check_drift d prompt).match_strength with
  | strong => simp [hms]
  | weak => simp [hms]
  | none =>
    simp only [hms]
    by_cases hk : (extractKeywords prompt).length < 2
    · simp [hk]
    · rcases hf (searchQueryOf prompt) d.jira_project_key with ⟨e, he⟩ | he <;>
        simp [hk, he]

def c6Search : SearchFn := fun _ _ => Except.error ("connection refused".data)

def c6Detector : DriftDetector := { tasks := [], jira_client := some c6Search }

theorem checkDriftAsync_failure_preserves_local_witness :
    (checkDriftAsync c6Detector "implement the login page".data).1 =
      check_drift c6Detector "implement the login page".data :=
  checkDriftAsync_failure_preserves_local c6Detector c6Search
    "implement the login page".data rfl
    (fun _ _ => Or.inl ⟨"connection refused".data, rfl⟩)

end Overseer
